import Mathlib

/-!
Verification of the eqk earthquake-report program (src/main.go).

The program is a single pipeline: parse an optional command-line magnitude
threshold, fetch a GeoJSON feed over HTTP, decode it, print one block per
record whose magnitude strictly exceeds the threshold, and print a count.

Modelling conventions:
- Go float64 values are modelled as exact rationals (Rat); the comparisons
  and decimal formatting the program performs are exact on the verified
  inputs, so no binary-rounding behaviour is load-bearing.
- The HTTP GET and the JSON decode of src/main.go:125-147 run in IO; their
  combined outcome is passed to the model as an `Except String Earthquake`
  oracle argument (error = fetch or decode failure, carrying the cause).
- Standard-library calls (strconv.ParseFloat, time formatting, fmt verbs,
  encoding/json field matching) are modelled by explicit Lean functions,
  each documented at its definition.
- stdout is a list of printed lines, the log (stderr) another list;
  log.Fatalf gives exit code 1, a runtime panic (index out of range)
  exit code 2, normal termination exit code 0, as in Go.
-/

namespace Eqk

/-- Metadata mirrors the `Metadata` struct of src/main.go:22-29.
Go json tags: generated, url, title, status, api, count. -/
structure Metadata where
  generated : Int
  url : String
  title : String
  status : Int
  api : String
  count : Int
deriving DecidableEq

/-- The zero value of Metadata, as Go initialises it. -/
def Metadata.zero : Metadata := ⟨0, "", "", 0, "", 0⟩

/-- The nested anonymous `Properties` struct of src/main.go:37-45.
Go json tags: mag, place, time, updated, tz, longitude, latitude. -/
structure Properties where
  mag : Rat
  place : String
  time : Int
  updated : Int
  tz : Int
  longitude : Rat
  latitude : Rat
deriving DecidableEq

/-- The zero value of Properties. -/
def Properties.zero : Properties := ⟨0, "", 0, 0, 0, 0, 0⟩

/-- The nested anonymous `Geometry` struct of src/main.go:46-49.
Go json tags: type, coordinates. -/
structure Geometry where
  type : String
  coordinates : List Rat
deriving DecidableEq

/-- The zero value of Geometry. -/
def Geometry.zero : Geometry := ⟨"", []⟩

/-- One element of the `Features` slice of src/main.go:35-50. -/
structure Feature where
  type : String
  properties : Properties
  geometry : Geometry
deriving DecidableEq

/-- The zero value of Feature. -/
def Feature.zero : Feature := ⟨"", Properties.zero, Geometry.zero⟩

/-- The top-level `Earthquake` struct of src/main.go:32-51.  Note that in
the source the `Meta Metadata` field carries NO json tag (unlike every
other field), so its effective json key is the field name `Meta`. -/
structure Earthquake where
  type : String
  meta : Metadata
  features : List Feature
deriving DecidableEq

/-- The zero value of Earthquake. -/
def Earthquake.zero : Earthquake := ⟨"", Metadata.zero, []⟩

/-! ### Decimal formatting (models the fmt %.Nf verbs) -/

/-- Decimal rendering of a Nat left-padded with zeros to `width` digits. -/
def natDigitsPad (n width : Nat) : String :=
  let s := toString n
  String.mk (List.replicate (width - s.length) '0') ++ s

/-- Models the Go fmt verb `%.{prec}f` applied to a float64, on exact
rational inputs: fixed-point decimal with exactly `prec` fractional
digits, rounded to nearest (ties away from zero; Go rounds the exact
binary value to nearest and no verified input is a tie). -/
def formatFixed (prec : Nat) (q : Rat) : String :=
  let sign := if q < 0 then "-" else ""
  let a : Rat := if q < 0 then -q else q
  let scaled : Nat := (2 * a.num.toNat * 10 ^ prec + a.den) / (2 * a.den)
  let ip := scaled / 10 ^ prec
  let fp := scaled % 10 ^ prec
  if prec = 0 then sign ++ toString ip
  else sign ++ toString ip ++ "." ++ natDigitsPad fp prec

/-! ### UTC timestamp formatting (models time.UnixMilli + Format) -/

/-- Civil date (year, month, day) of a count of days since 1970-01-01,
in the proleptic Gregorian calendar (the algorithm used by Go and by
standard civil-from-days implementations). -/
def civilFromDays (z0 : Int) : Int × Int × Int :=
  let z := z0 + 719468
  let era := Int.ediv z 146097
  let doe := z - era * 146097
  let yoe := Int.ediv (doe - Int.ediv doe 1460 + Int.ediv doe 36524 - Int.ediv doe 146096) 365
  let y := yoe + era * 400
  let doy := doe - (365 * yoe + Int.ediv yoe 4 - Int.ediv yoe 100)
  let mp := Int.ediv (5 * doy + 2) 153
  let d := doy - Int.ediv (153 * mp + 2) 5 + 1
  let m := if mp < 10 then mp + 3 else mp - 9
  (if m ≤ 2 then y + 1 else y, m, d)

/-- Models `time.UnixMilli(ms).UTC().Format("2006-01-02 15:04:05 MST")`
from src/main.go:117-118 with dateFormat of src/main.go:58: the instant
`ms` milliseconds after the Unix epoch rendered in UTC as
YYYY-MM-DD HH:MM:SS followed by the zone abbreviation UTC. -/
def formatUTC (ms : Int) : String :=
  let s := Int.ediv ms 1000
  let days := Int.ediv s 86400
  let sod := (Int.emod s 86400).toNat
  let ymd := civilFromDays days
  natDigitsPad ymd.1.toNat 4 ++ "-" ++ natDigitsPad ymd.2.1.toNat 2 ++ "-" ++
    natDigitsPad ymd.2.2.toNat 2 ++ " " ++ natDigitsPad (sod / 3600) 2 ++ ":" ++
    natDigitsPad (sod % 3600 / 60) 2 ++ ":" ++ natDigitsPad (sod % 60) 2 ++ " UTC"

/-! ### JSON decoding (models encoding/json on the Earthquake schema) -/

/-- A JSON value; numbers are kept exact as rationals. -/
inductive Json where
  | null : Json
  | bool (b : Bool) : Json
  | num (q : Rat) : Json
  | str (s : String) : Json
  | arr (elems : List Json) : Json
  | obj (fields : List (String × Json)) : Json

/-- ASCII lower-casing of one character (all keys in the schema are
ASCII, so this matches the case folding encoding/json performs). -/
def asciiLower (c : Char) : Char :=
  if 'A' ≤ c ∧ c ≤ 'Z' then Char.ofNat (c.toNat + 32) else c

/-- encoding/json key matching for a struct field: the JSON key must
equal the effective field key (the json tag when present, else the field
name) exactly or case-insensitively. -/
def keyMatches (fieldKey jsonKey : String) : Bool :=
  jsonKey == fieldKey || jsonKey.data.map asciiLower == fieldKey.data.map asciiLower

/-- The JSON value decoded into a given struct field: encoding/json
streams the object and decodes every matching key into the field, so with
duplicate keys the last occurrence wins. -/
def lookupField (fieldKey : String) (fields : List (String × Json)) : Option Json :=
  fields.foldl (fun acc kv => if keyMatches fieldKey kv.1 then some kv.2 else acc) none

/-- Decode one struct field: a missing key leaves the current (zero)
value, a present key is decoded by `dec`. -/
def decodeField {α : Type} (fieldKey : String) (fields : List (String × Json)) (cur : α)
    (dec : α → Json → Except String α) : Except String α :=
  match lookupField fieldKey fields with
  | none => .ok cur
  | some j => dec cur j

/-- Unmarshal a JSON value into a Go string: null is a no-op, a JSON
string replaces the value, anything else is a type-mismatch error. -/
def decodeStringInto (cur : String) : Json → Except String String
  | .null => .ok cur
  | .str s => .ok s
  | _ => .error "json: cannot unmarshal value into Go value of type string"

/-- Unmarshal a JSON value into a Go float64 (modelled as Rat). -/
def decodeFloatInto (cur : Rat) : Json → Except String Rat
  | .null => .ok cur
  | .num q => .ok q
  | _ => .error "json: cannot unmarshal value into Go value of type float64"

/-- Unmarshal a JSON value into a Go integer field: the number must be
integral, fractional numbers are a type-mismatch error. -/
def decodeIntInto (cur : Int) : Json → Except String Int
  | .null => .ok cur
  | .num q => if q.den = 1 then .ok q.num else .error "json: cannot unmarshal number into Go value of integer type"
  | _ => .error "json: cannot unmarshal value into Go value of integer type"

/-- Unmarshal into the Metadata struct of src/main.go:22-29 (all six
fields carry json tags with the lowercase names). -/
def decodeMetadata (cur : Metadata) : Json → Except String Metadata
  | .null => .ok cur
  | .obj fields => do
    let generated ← decodeField "generated" fields cur.generated decodeIntInto
    let url ← decodeField "url" fields cur.url decodeStringInto
    let title ← decodeField "title" fields cur.title decodeStringInto
    let status ← decodeField "status" fields cur.status decodeIntInto
    let api ← decodeField "api" fields cur.api decodeStringInto
    let count ← decodeField "count" fields cur.count decodeIntInto
    .ok ⟨generated, url, title, status, api, count⟩
  | _ => .error "json: cannot unmarshal value into Go value of type main.Metadata"

/-- Unmarshal into the nested Properties struct of src/main.go:37-45. -/
def decodeProperties (cur : Properties) : Json → Except String Properties
  | .null => .ok cur
  | .obj fields => do
    let mag ← decodeField "mag" fields cur.mag decodeFloatInto
    let place ← decodeField "place" fields cur.place decodeStringInto
    let time ← decodeField "time" fields cur.time decodeIntInto
    let updated ← decodeField "updated" fields cur.updated decodeIntInto
    let tz ← decodeField "tz" fields cur.tz decodeIntInto
    let longitude ← decodeField "longitude" fields cur.longitude decodeFloatInto
    let latitude ← decodeField "latitude" fields cur.latitude decodeFloatInto
    .ok ⟨mag, place, time, updated, tz, longitude, latitude⟩
  | _ => .error "json: cannot unmarshal value into Go value of type main.Properties"

/-- Unmarshal every element of a JSON array, each starting from the zero
value of the slice element type. -/
def decodeList {α : Type} (dec : Json → Except String α) : List Json → Except String (List α)
  | [] => .ok []
  | j :: rest => do
    let x ← dec j
    let xs ← decodeList dec rest
    .ok (x :: xs)

/-- Unmarshal a JSON value into a []float64: each element starts from the
zero value 0.  Any length is accepted, including fewer than 2 elements. -/
def decodeFloatList (cur : List Rat) : Json → Except String (List Rat)
  | .null => .ok cur
  | .arr elems => decodeList (decodeFloatInto 0) elems
  | _ => .error "json: cannot unmarshal value into Go value of type []float64"

/-- Unmarshal into the nested Geometry struct of src/main.go:46-49. -/
def decodeGeometry (cur : Geometry) : Json → Except String Geometry
  | .null => .ok cur
  | .obj fields => do
    let t ← decodeField "type" fields cur.type decodeStringInto
    let coords ← decodeField "coordinates" fields cur.coordinates decodeFloatList
    .ok ⟨t, coords⟩
  | _ => .error "json: cannot unmarshal value into Go value of type main.Geometry"

/-- Unmarshal one element of the Features slice (src/main.go:35-50). -/
def decodeFeature (cur : Feature) : Json → Except String Feature
  | .null => .ok cur
  | .obj fields => do
    let t ← decodeField "type" fields cur.type decodeStringInto
    let props ← decodeField "properties" fields cur.properties decodeProperties
    let geom ← decodeField "geometry" fields cur.geometry decodeGeometry
    .ok ⟨t, props, geom⟩
  | _ => .error "json: cannot unmarshal value into Go value of type main.Feature"

/-- Unmarshal a JSON value into the Features slice: each element of the
array starts from the zero Feature. -/
def decodeFeatureList (cur : List Feature) : Json → Except String (List Feature)
  | .null => .ok cur
  | .arr elems => decodeList (decodeFeature Feature.zero) elems
  | _ => .error "json: cannot unmarshal value into Go value of type []main.Feature"

/-- The decode of src/main.go:141-144 into the Earthquake struct.  The
`Type` and `Features` fields carry json tags `type` and `features`; the
`Meta Metadata` field carries NO tag, so its effective key is the field
name `Meta`, matched exactly or case-insensitively — the feed key
`metadata` matches neither and is ignored as an unknown field. -/
def decodeEarthquake : Json → Except String Earthquake
  | .null => .ok Earthquake.zero
  | .obj fields => do
    let t ← decodeField "type" fields "" decodeStringInto
    let meta ← decodeField "Meta" fields Metadata.zero decodeMetadata
    let features ← decodeField "features" fields [] decodeFeatureList
    .ok ⟨t, meta, features⟩
  | _ => .error "json: cannot unmarshal value into Go value of type main.Earthquake"

/-! ### Argument parsing (src/main.go:67-75) -/

/-- Models `strconv.ParseFloat(s, 64)` on plain decimal inputs, with the
parsed value kept exact as a rational: optional sign, decimal digits with
an optional fractional part (digits required on at least one side of the
dot), and an optional e/E exponent.  Hex floats, "Inf"/"NaN" spellings and
digit-group underscores accepted by Go are outside the modelled fragment;
every input the claims exercise is plain decimal or rejected by both. -/
def parseFloat? (s : String) : Option Rat :=
  let cs := s.data
  let signAndRest : Bool × List Char :=
    match cs with
    | '-' :: rest => (true, rest)
    | '+' :: rest => (false, rest)
    | _ => (false, cs)
  let neg := signAndRest.1
  let intDigits := signAndRest.2.takeWhile Char.isDigit
  let afterInt := signAndRest.2.dropWhile Char.isDigit
  let fracAndRest : List Char × List Char :=
    match afterInt with
    | '.' :: rest => (rest.takeWhile Char.isDigit, rest.dropWhile Char.isDigit)
    | _ => ([], afterInt)
  let fracDigits := fracAndRest.1
  if intDigits.isEmpty ∧ fracDigits.isEmpty then none
  else
    let mantissaNum : Nat :=
      (intDigits ++ fracDigits).foldl (fun a c => a * 10 + (c.toNat - 48)) 0
    let finish : Int → Option Rat := fun e =>
      let up : Nat := if 0 ≤ e then e.toNat else 0
      let down : Nat := if 0 ≤ e then 0 else (-e).toNat
      let mag : Int := ((mantissaNum * 10 ^ up : Nat) : Int)
      some (mkRat (if neg then -mag else mag) (10 ^ (fracDigits.length + down)))
    match fracAndRest.2 with
    | [] => finish 0
    | c :: rest =>
      if c = 'e' ∨ c = 'E' then
        let esign : Bool × List Char :=
          match rest with
          | '-' :: r => (true, r)
          | '+' :: r => (false, r)
          | _ => (false, rest)
        let eDigits := esign.2.takeWhile Char.isDigit
        if eDigits.isEmpty ∨ ¬(esign.2.dropWhile Char.isDigit).isEmpty then none
        else
          let eNat : Nat := eDigits.foldl (fun a c => a * 10 + (c.toNat - 48)) 0
          finish (if esign.1 then -(eNat : Int) else (eNat : Int))
      else none

/-- The warning printed by src/main.go:72. -/
def invalidMagnitudeWarning : String := "Invalid magnitude provided, using default of 0"

/-- parseMinimumMagnitude of src/main.go:67-75.  The argument list is
os.Args, whose head is the program name; the function reads os.Args[1]
when present.  Returns the threshold together with the log lines written
(log.Printf on an unparsable argument). -/
def parseMinimumMagnitude : List String → Rat × List String
  | _ :: a :: _ =>
    match parseFloat? a with
    | some n => (n, [])
    | none => (0, [invalidMagnitudeWarning])
  | _ => (0, [])

/-! ### Reporting (src/main.go:77-123) -/

/-- The separator constant of src/main.go:57. -/
def separator : String :=
  "-------------------------------------------------------------------"

/-- printEarthquakeInfo of src/main.go:99-123.  Returns the lines printed
and whether the function ran to completion: Go evaluates
`Coordinates[0]` after printing the Time line and `Coordinates[1]` after
printing the Longitude line, and an index out of range is a runtime panic
(modelled as completion flag `false`, with the lines printed so far). -/
def printEarthquakeInfo (f : Feature) : List String × Bool :=
  let head := ["Epicenter: " ++ f.properties.place,
               "Magnitude: " ++ formatFixed 1 f.properties.mag,
               "Time: " ++ formatUTC f.properties.time]
  match f.geometry.coordinates with
  | [] => (head, false)
  | [c0] => (head ++ ["Longitude: " ++ formatFixed 4 c0], false)
  | c0 :: c1 :: _ =>
    (head ++ ["Longitude: " ++ formatFixed 4 c0,
              "Latitude: " ++ formatFixed 4 c1,
              separator], true)

/-- The loop of src/main.go:87-94: iterate features in order, and for each
with Mag strictly above the threshold print its block and increment the
counter.  Returns the printed lines and `some count`, or `none` in place
of the count when a print panicked (the loop stops there). -/
def runFeatures (m : Rat) : List Feature → List String × Option Nat
  | [] => ([], some 0)
  | f :: rest =>
    if f.properties.mag > m then
      match printEarthquakeInfo f with
      | (lines, true) =>
        let tail := runFeatures m rest
        (lines ++ tail.1, tail.2.map (· + 1))
      | (lines, false) => (lines, none)
    else runFeatures m rest

/-- The header printed by src/main.go:83-85. -/
def header (m : Rat) : List String :=
  [separator,
   "Earthquake(s) with magnitude " ++ formatFixed 1 m ++ " or higher in the last 30 days:",
   separator]

/-- Outcome of listQuakes: a fatal log (log.Fatalf, exit 1), a runtime
panic after some output (exit 2), or normal completion with the returned
count. -/
inductive ListResult where
  | fatal (logMsg : String)
  | panicked (stdout : List String)
  | done (stdout : List String) (count : Nat)
deriving DecidableEq

/-- listQuakes of src/main.go:77-97.  `fetchResult` is the outcome of
fetchEarthquakeData (src/main.go:125-147): the HTTP GET plus JSON decode,
whose error (network failure or decode failure) carries the cause. -/
def listQuakes (m : Rat) (fetchResult : Except String Earthquake) : ListResult :=
  match fetchResult with
  | .error e => .fatal ("Failed to fetch earthquake data: " ++ e)
  | .ok data =>
    match runFeatures m data.features with
    | (out, some n) => .done (header m ++ out) n
    | (out, none) => .panicked (header m ++ out)

/-- Observable outcome of one program run: stdout lines, log (stderr)
lines, and the process exit code. -/
structure Outcome where
  stdout : List String
  logLines : List String
  exitCode : Nat
deriving DecidableEq

/-- main of src/main.go:61-65: parse the threshold from os.Args, run
listQuakes, then print the total.  log.Fatalf exits with code 1; a
runtime panic exits with code 2; otherwise the process exits 0. -/
def main (osArgs : List String) (fetchResult : Except String Earthquake) : Outcome :=
  let pm := parseMinimumMagnitude osArgs
  match listQuakes pm.1 fetchResult with
  | .fatal msg => ⟨[], pm.2 ++ [msg], 1⟩
  | .panicked out => ⟨out, pm.2, 2⟩
  | .done out n => ⟨out ++ ["Total number of Earthquakes: " ++ toString n], pm.2, 0⟩

/-- A sample feature used to instantiate universally quantified theorems
on concrete inputs. -/
def sampleFeature (mag : Rat) : Feature :=
  ⟨"Feature", ⟨mag, "somewhere", 1700000000000, 1700000000000, 0, 0, 0⟩,
   ⟨"Point", [mkRat (-1224194) 10000, mkRat 377749 10000, 10]⟩⟩

/-- A sample feed holding features of magnitudes 5 and 6. -/
def sampleData : Earthquake :=
  ⟨"FeatureCollection", Metadata.zero, [sampleFeature 5, sampleFeature 6]⟩

/-- An empty feed used to instantiate the C8 theorem. -/
def emptyFeed : Earthquake := ⟨"FeatureCollection", Metadata.zero, []⟩

/-- A feature whose coordinates sequence has only one element. -/
def shortFeature : Feature :=
  ⟨"Feature", ⟨6, "somewhere", 1700000000000, 0, 0, 0, 0⟩, ⟨"Point", [1]⟩⟩

/-- A feed document whose single feature carries a one-element
coordinates sequence. -/
def shortCoordDoc : Json :=
  Json.obj [("type", Json.str "FeatureCollection"),
    ("features", Json.arr [Json.obj [("type", Json.str "Feature"),
      ("properties", Json.obj [("mag", Json.num 6), ("place", Json.str "somewhere"),
        ("time", Json.num 1700000000000)]),
      ("geometry", Json.obj [("type", Json.str "Point"),
        ("coordinates", Json.arr [Json.num 1])])]])]

/-- The value shortCoordDoc decodes to. -/
def shortCoordData : Earthquake :=
  ⟨"FeatureCollection", Metadata.zero, [shortFeature]⟩

/-- A feed document shaped like the USGS feed with an empty feature list,
its metadata member stored under the given key. -/
def feedDoc (metaKey : String) : Json :=
  Json.obj [("type", Json.str "FeatureCollection"),
    (metaKey, Json.obj [("generated", Json.num 1700000000000),
      ("url", Json.str "https://earthquake.usgs.gov/earthquakes/feed/v1.0/summary/significant_month.geojson"),
      ("title", Json.str "USGS Significant Earthquakes, Past Month"),
      ("status", Json.num 200), ("api", Json.str "1.10.3"), ("count", Json.num 7)]),
    ("features", Json.arr [])]

end Eqk

deriving instance DecidableEq for Except

namespace Eqk

/-! ### Helper lemmas -/

/-- The full block printed for a feature whose coordinates hold at least
two elements, together with normal completion. -/
theorem printEarthquakeInfo_of_coords (f : Feature) (c0 c1 : Rat) (rest : List Rat)
    (h : f.geometry.coordinates = c0 :: c1 :: rest) :
    printEarthquakeInfo f =
      (["Epicenter: " ++ f.properties.place,
        "Magnitude: " ++ formatFixed 1 f.properties.mag,
        "Time: " ++ formatUTC f.properties.time,
        "Longitude: " ++ formatFixed 4 c0,
        "Latitude: " ++ formatFixed 4 c1,
        separator], true) := by
  simp [printEarthquakeInfo, h]

/-- printEarthquakeInfo runs to completion exactly when the coordinates
hold at least two elements. -/
theorem printEarthquakeInfo_completed (f : Feature) :
    (printEarthquakeInfo f).2 = decide (2 ≤ f.geometry.coordinates.length) := by
  rcases hc : f.geometry.coordinates with _ | ⟨c0, tl⟩
  · simp [printEarthquakeInfo, hc]
  · rcases tl with _ | ⟨c1, rest⟩ <;> simp [printEarthquakeInfo, hc]

/-- On a feature list whose members all satisfy the coordinate-length
invariant, the loop completes and produces exactly the blocks of the
strictly-above-threshold features, in order, with their count. -/
theorem runFeatures_eq (m : Rat) (fs : List Feature)
    (h : ∀ f ∈ fs, 2 ≤ f.geometry.coordinates.length) :
    runFeatures m fs =
      ((fs.filter (fun f => decide (f.properties.mag > m))).flatMap
         (fun f => (printEarthquakeInfo f).1),
       some (fs.filter (fun f => decide (f.properties.mag > m))).length) := by
  induction fs with
  | nil => rfl
  | cons f rest ih =>
    have hf : 2 ≤ f.geometry.coordinates.length := h f (List.mem_cons_self f rest)
    have hrest : ∀ g ∈ rest, 2 ≤ g.geometry.coordinates.length :=
      fun g hg => h g (List.mem_cons_of_mem f hg)
    have hcomp : (printEarthquakeInfo f).2 = true := by
      rw [printEarthquakeInfo_completed]; simpa using hf
    by_cases hm : f.properties.mag > m
    · rcases hpr : printEarthquakeInfo f with ⟨lines, b⟩
      rw [hpr] at hcomp
      simp only [] at hcomp
      subst hcomp
      simp [runFeatures, hm, hpr, ih hrest, List.filter_cons]
    · simp [runFeatures, hm, ih hrest, List.filter_cons]

/-- Filtering with a stronger predicate never yields a longer list. -/
theorem length_filter_le_of_imp {α : Type} (p q : α → Bool) (l : List α)
    (h : ∀ a, p a = true → q a = true) :
    (l.filter p).length ≤ (l.filter q).length := by
  induction l with
  | nil => simp
  | cons a l ih =>
    by_cases hp : p a = true
    · simp [List.filter_cons, hp, h a hp]; omega
    · rcases hq : q a <;>
        simp [List.filter_cons, hp, hq] <;> omega

/-! ### Claims -/

/-- C1: for every decoded feed (meeting the coordinate-length invariant
the source feed guarantees) and every threshold m, the count returned by
listQuakes equals the number of records with magnitude strictly greater
than m; and a record whose magnitude equals the threshold exactly
contributes neither a printed block nor a count increment. -/
theorem count_matches_strict_filter (m : Rat) (data : Earthquake)
    (h : ∀ f ∈ data.features, 2 ≤ f.geometry.coordinates.length) :
    (∃ out, listQuakes m (Except.ok data) =
       ListResult.done out
         ((data.features.filter (fun f => decide (f.properties.mag > m))).length)) ∧
    (∀ f fs, f.properties.mag = m → runFeatures m (f :: fs) = runFeatures m fs) := by
  constructor
  · have hrf := runFeatures_eq m data.features h
    refine ⟨header m ++ (data.features.filter
        (fun f => decide (f.properties.mag > m))).flatMap
        (fun f => (printEarthquakeInfo f).1), ?_⟩
    simp [listQuakes, hrf]
  · intro f fs hf
    have hnot : ¬ (f.properties.mag > m) := by
      rw [hf]; exact lt_irrefl m
    simp [runFeatures, hnot]

/-- Witness for C1: at threshold 5 on a feed with magnitudes 5 and 6 the
reported count is 1, and the magnitude-5 record is skipped whole. -/
theorem count_matches_strict_filter_witness :
    (∃ out, listQuakes 5 (Except.ok sampleData) = ListResult.done out 1) ∧
    runFeatures 5 (sampleFeature 5 :: []) = runFeatures 5 [] := by
  have h := count_matches_strict_filter 5 sampleData (by decide)
  have hlen : (sampleData.features.filter
      (fun f => decide (f.properties.mag > 5))).length = 1 := by decide
  constructor
  · obtain ⟨out, hout⟩ := h.1
    exact ⟨out, by rw [hout, hlen]⟩
  · exact h.2 (sampleFeature 5) [] (by decide)

/-- C10: for a fixed feed meeting the coordinate-length invariant, the
reported count is antitone in the threshold, and every count is at most
the number of records in the feed. -/
theorem count_antitone_and_bounded (data : Earthquake) (m1 m2 : Rat)
    (hm : m1 ≤ m2) (h : ∀ f ∈ data.features, 2 ≤ f.geometry.coordinates.length) :
    ∃ n1 n2, (runFeatures m1 data.features).2 = some n1 ∧
      (runFeatures m2 data.features).2 = some n2 ∧
      n2 ≤ n1 ∧ n1 ≤ data.features.length := by
  have h1 := runFeatures_eq m1 data.features h
  have h2 := runFeatures_eq m2 data.features h
  refine ⟨(data.features.filter (fun f => decide (f.properties.mag > m1))).length,
          (data.features.filter (fun f => decide (f.properties.mag > m2))).length,
          by rw [h1], by rw [h2], ?_, ?_⟩
  · refine length_filter_le_of_imp _ _ data.features (fun f hf => ?_)
    simp only [decide_eq_true_eq] at hf ⊢
    exact lt_of_le_of_lt hm hf
  · exact List.length_filter_le _ _

/-- C2: on a fetch failure or a decode failure the process logs one
diagnostic line carrying the underlying cause, exits with status 1
(nonzero), and prints nothing to stdout: no header, no blocks, no
partial output. -/
theorem fatal_on_fetch_or_decode_error (osArgs : List String) (e : String) :
    main osArgs (Except.error e) =
      ⟨[], (parseMinimumMagnitude osArgs).2 ++
        ["Failed to fetch earthquake data: " ++ e], 1⟩ ∧
    (main osArgs (Except.error e)).stdout = [] ∧
    (main osArgs (Except.error e)).exitCode ≠ 0 := by
  refine ⟨rfl, rfl, ?_⟩
  simp [main, listQuakes]

/-- C3: a present, parsable first argument becomes the threshold with no
warning logged; a present but unparsable one logs a warning and falls
back to 0; an absent one gives 0 with no warning. -/
theorem minimum_magnitude_parsing (prog a : String) (rest : List String) (n : Rat) :
    (parseFloat? a = some n → parseMinimumMagnitude (prog :: a :: rest) = (n, [])) ∧
    (parseFloat? a = none →
      parseMinimumMagnitude (prog :: a :: rest) = (0, [invalidMagnitudeWarning])) ∧
    parseMinimumMagnitude [prog] = (0, []) := by
  refine ⟨fun hp => ?_, fun hp => ?_, rfl⟩ <;>
    simp [parseMinimumMagnitude, hp]

/-- Witness for C3: argument 2.5 parses to threshold 5/2, argument abc
falls back to 0 with the warning, no argument gives 0. -/
theorem minimum_magnitude_parsing_witness :
    parseMinimumMagnitude ["eqk", "2.5"] = (mkRat 5 2, []) ∧
    parseMinimumMagnitude ["eqk", "abc"] = (0, [invalidMagnitudeWarning]) ∧
    parseMinimumMagnitude ["eqk"] = (0, []) :=
  ⟨(minimum_magnitude_parsing "eqk" "2.5" [] (mkRat 5 2)).1 (by decide),
   (minimum_magnitude_parsing "eqk" "abc" [] 0).2.1 (by decide),
   (minimum_magnitude_parsing "eqk" "x" [] 0).2.2⟩

/-- C9: every command-line argument after the first is ignored: the
parsed threshold and warning, and the whole observable outcome of the
run, agree for any two tails of extra arguments. -/
theorem extra_arguments_ignored (prog a : String) (rest1 rest2 : List String)
    (fetchResult : Except String Earthquake) :
    parseMinimumMagnitude (prog :: a :: rest1) =
      parseMinimumMagnitude (prog :: a :: rest2) ∧
    main (prog :: a :: rest1) fetchResult = main (prog :: a :: rest2) fetchResult := by
  constructor <;> rfl

/-- C5: every printed block carries a Time line holding the record's
millisecond-epoch event time converted to UTC and formatted as
YYYY-MM-DD HH:MM:SS followed by the zone abbreviation; event time
1700000000000 renders as 2023-11-14 22:13:20 UTC. -/
theorem printed_time_utc_format (f : Feature) :
    ("Time: " ++ formatUTC f.properties.time) ∈ (printEarthquakeInfo f).1 ∧
    formatUTC 1700000000000 = "2023-11-14 22:13:20 UTC" := by
  refine ⟨?_, by decide⟩
  rcases hc : f.geometry.coordinates with _ | ⟨c0, _ | ⟨c1, rest⟩⟩ <;>
    simp [printEarthquakeInfo, hc]

/-- C6: the block of a record with at least two coordinates is exactly
the place, the magnitude to one decimal, the UTC time, and the first two
coordinates to four decimals, followed by the separator; entries past the
second (depth) never affect the block; coordinates -122.4194 and 37.7749
render verbatim. -/
theorem printed_block_fields (f : Feature) (c0 c1 : Rat) (rest : List Rat)
    (h : f.geometry.coordinates = c0 :: c1 :: rest) :
    (printEarthquakeInfo f).1 =
      ["Epicenter: " ++ f.properties.place,
       "Magnitude: " ++ formatFixed 1 f.properties.mag,
       "Time: " ++ formatUTC f.properties.time,
       "Longitude: " ++ formatFixed 4 c0,
       "Latitude: " ++ formatFixed 4 c1,
       separator] ∧
    printEarthquakeInfo f =
      printEarthquakeInfo ⟨f.type, f.properties, ⟨f.geometry.type, [c0, c1]⟩⟩ ∧
    formatFixed 4 (mkRat (-1224194) 10000) = "-122.4194" ∧
    formatFixed 4 (mkRat 377749 10000) = "37.7749" := by
  refine ⟨?_, ?_, by decide, by decide⟩
  · rw [printEarthquakeInfo_of_coords f c0 c1 rest h]
  · rw [printEarthquakeInfo_of_coords f c0 c1 rest h,
        printEarthquakeInfo_of_coords _ c0 c1 [] rfl]

/-- Witness for C6 on a concrete record with coordinates -122.4194,
37.7749 and depth 10: the exact printed block. -/
theorem printed_block_fields_witness :
    (printEarthquakeInfo (sampleFeature 6)).1 =
      ["Epicenter: somewhere", "Magnitude: 6.0", "Time: 2023-11-14 22:13:20 UTC",
       "Longitude: -122.4194", "Latitude: 37.7749", separator] := by
  have h := printed_block_fields (sampleFeature 6)
    (mkRat (-1224194) 10000) (mkRat 377749 10000) [10] rfl
  rw [h.1]
  decide

/-- C8: on a successful fetch of a feed meeting the coordinate-length
invariant the program prints the header, then the blocks of the selected
records in feed order, then the summary line, and exits 0; with no
argument (threshold 0) and an empty feed the header is followed
immediately by the count-0 summary line. -/
theorem report_layout_and_empty_feed (osArgs : List String) (data : Earthquake)
    (h : ∀ f ∈ data.features, 2 ≤ f.geometry.coordinates.length) :
    main osArgs (Except.ok data) =
      ⟨header (parseMinimumMagnitude osArgs).1 ++
         (data.features.filter
            (fun f => decide (f.properties.mag > (parseMinimumMagnitude osArgs).1))).flatMap
           (fun f => (printEarthquakeInfo f).1) ++
         ["Total number of Earthquakes: " ++ toString
            (data.features.filter
               (fun f => decide (f.properties.mag > (parseMinimumMagnitude osArgs).1))).length],
       (parseMinimumMagnitude osArgs).2, 0⟩ ∧
    (data.features = [] → ∀ prog, main [prog] (Except.ok data) =
      ⟨header 0 ++ ["Total number of Earthquakes: 0"], [], 0⟩) := by
  constructor
  · have hrf := runFeatures_eq (parseMinimumMagnitude osArgs).1 data.features h
    simp [main, listQuakes, hrf]
  · intro hempty prog
    rcases data with ⟨t, meta, feats⟩
    simp only at hempty
    subst hempty
    rfl

/-- Witness for C8: an empty feed with no argument prints header then the
count-0 summary and exits 0. -/
theorem report_layout_and_empty_feed_witness :
    main ["eqk"] (Except.ok emptyFeed) =
      ⟨header 0 ++ ["Total number of Earthquakes: 0"], [], 0⟩ :=
  (report_layout_and_empty_feed ["eqk"] emptyFeed (by decide)).2 rfl "eqk"

/-- Witness for C10 at thresholds 4 ≤ 5 on the two-record sample feed:
counts 2 and 1. -/
theorem count_antitone_and_bounded_witness :
    ∃ n1 n2, (runFeatures 4 sampleData.features).2 = some n1 ∧
      (runFeatures 5 sampleData.features).2 = some n2 ∧
      n2 ≤ n1 ∧ n1 ≤ sampleData.features.length :=
  count_antitone_and_bounded sampleData 4 5 (by norm_num) (by decide)

/-- C4 counterexample: a record whose coordinates sequence has one
element is NOT treated as a decode error — decoding the feed succeeds —
and printing the selected record runs into the out-of-bounds index: the
run ends in a panic (exit 2) after a partial block, instead of taking the
decode-failure path. -/
theorem short_coordinates_counterexample :
    decodeEarthquake shortCoordDoc = Except.ok shortCoordData ∧
    (printEarthquakeInfo shortFeature).2 = false ∧
    main ["eqk"] (Except.ok shortCoordData) =
      ⟨header 0 ++ ["Epicenter: somewhere", "Magnitude: 6.0",
        "Time: 2023-11-14 22:13:20 UTC", "Longitude: 1.0000"], [], 2⟩ := by
  refine ⟨by decide, by decide, by decide⟩

/-- C4 amended: longitude/latitude extraction (completion of the printed
block) succeeds exactly when the coordinates sequence has at least two
elements; a shorter sequence is not a decode error — every float array
decodes, whatever its length — and a selected record with a shorter
sequence ends the run in an out-of-bounds index panic at print time. -/
theorem short_coordinates_panic_not_decode_error (f : Feature) (qs : List Rat) :
    ((printEarthquakeInfo f).2 = decide (2 ≤ f.geometry.coordinates.length)) ∧
    decodeFloatList [] (Json.arr (qs.map Json.num)) = Except.ok qs ∧
    (f.properties.mag > 0 → f.geometry.coordinates.length < 2 →
      (runFeatures 0 [f]).2 = none) := by
  refine ⟨printEarthquakeInfo_completed f, ?_, ?_⟩
  · show decodeList (decodeFloatInto 0) (qs.map Json.num) = Except.ok qs
    induction qs with
    | nil => rfl
    | cons q qs ih =>
      simp only [List.map_cons, decodeList, decodeFloatInto, ih]
      rfl
  · intro hm hlen
    have hb : (printEarthquakeInfo f).2 = false := by
      rw [printEarthquakeInfo_completed]
      simpa using hlen
    rcases hpr : printEarthquakeInfo f with ⟨lines, b⟩
    rw [hpr] at hb
    simp only [] at hb
    subst hb
    simp [runFeatures, hm, hpr]

/-- Witness for the amended C4 at the concrete one-coordinate record. -/
theorem short_coordinates_panic_witness :
    (printEarthquakeInfo shortFeature).2 =
      decide (2 ≤ shortFeature.geometry.coordinates.length) ∧
    decodeFloatList [] (Json.arr ([(1 : Rat)].map Json.num)) = Except.ok [(1 : Rat)] ∧
    (runFeatures 0 [shortFeature]).2 = none := by
  have h := short_coordinates_panic_not_decode_error shortFeature [(1 : Rat)]
  exact ⟨h.1, h.2.1, h.2.2 (by decide) (by decide)⟩

/-- C7 (code bug): the decoder does NOT populate the metadata attributes
from the document member keyed metadata — the Meta field of the
Earthquake struct carries no json tag, so the feed member metadata
matches nothing and is skipped as an unknown field, every metadata
attribute keeping its zero value, while the type tag and the records are
decoded; the same document with the member renamed Meta would populate
them all. -/
theorem metadata_not_populated :
    decodeEarthquake (feedDoc "metadata") =
      Except.ok ⟨"FeatureCollection", Metadata.zero, []⟩ ∧
    Metadata.zero.count = 0 ∧
    decodeEarthquake (feedDoc "Meta") =
      Except.ok ⟨"FeatureCollection",
        ⟨1700000000000,
         "https://earthquake.usgs.gov/earthquakes/feed/v1.0/summary/significant_month.geojson",
         "USGS Significant Earthquakes, Past Month", 200, "1.10.3", 7⟩, []⟩ :=
  ⟨by decide, rfl, by decide⟩

end Eqk
